import Mathlib

/-!
Verification of the MLS extraction / validation / statistics pipeline.

Shallow embedding of the repository's core modules:
* the assertion-style validator (`ValidationError`, `validatePricePoint`,
  `validateMarketTrends`, `validateSchoolInfo`, `validateDemographicMetric`,
  `validateProperty`, `validateMarketConditions`, `validateDemographicTrends`,
  `validateMLSReport`),
* the line extractor and statistics synthesizer (`extractMLSData`:
  token loop, flush, partition, `calculateAverage`, `calculateMedian`,
  statistics block),
* the market forecast engine (`calculateTrendStrength`, `generatePredictions`),
* the PDF pipeline orchestrator (`processPDF`).

JavaScript numbers are modelled as `ℚ`.  The spots where IEEE semantics
(division by zero giving `Infinity`/`NaN`, truthiness of `0`/`""`/`undefined`)
differ from `ℚ` are modelled explicitly with `if`-guards and noted with
comments at the definition site.
-/

namespace MLS

/-- `Math.round`: JS rounds half away from zero for positive halves;
`Math.round(x) = floor(x + 0.5)`.  (`Rat.floor` is used rather than `⌊⌋`
so that concrete inputs evaluate; `jsRound_def` bridges to `Int.floor`.) -/
def jsRound (q : ℚ) : ℤ := Rat.floor (q + 1/2)

/-- JS `a || b` on numbers: `a` when truthy (nonzero), else `b`. -/
def jsOr (a b : ℚ) : ℚ := if a = 0 then b else a

/-- JS `a || b` on strings: `a` when truthy (non-empty), else `b`. -/
def jsOrS (a b : String) : String := if a = "" then b else a

/-- Lexicographic `<` on character lists, used for JS string comparison
(`<` on code units; identical to scalar-value order on the ASCII dates
compared here). -/
def charsLt : List Char → List Char → Bool
  | [], [] => false
  | [], _ :: _ => true
  | _ :: _, [] => false
  | a :: as, b :: bs => if a < b then true else if b < a then false else charsLt as bs

/-- JS `a < b` on strings. -/
def jsStrLt (a b : String) : Bool := charsLt a.data b.data

/-- JS `a <= b` on strings (total order: `a ≤ b ↔ ¬ b < a`). -/
def jsStrLe (a b : String) : Bool := !(jsStrLt b a)

/-- The regex `^\d{4}-\d{2}$` used on price-point dates. -/
def dateFormatOk (s : String) : Bool :=
  match s.data with
  | [y1, y2, y3, y4, dash, m1, m2] =>
      y1.isDigit && y2.isDigit && y3.isDigit && y4.isDigit &&
        (dash = '-') && m1.isDigit && m2.isDigit
  | _ => false

/-- JS `String.prototype.trim`: strip leading and trailing whitespace
(written over the character list so that concrete inputs evaluate). -/
def jsTrim (s : String) : String :=
  ⟨((s.data.dropWhile Char.isWhitespace).reverse.dropWhile Char.isWhitespace).reverse⟩

/-- Split a character list on `'/'` (the groups, in order; `n` slashes give
`n + 1` groups). -/
def splitSlash : List Char → List (List Char)
  | [] => [[]]
  | c :: rest =>
    match splitSlash rest with
    | [] => [[c]]
    | g :: gs => if c = '/' then [] :: g :: gs else (c :: g) :: gs

/-- The regex `^\d+\/\d+\/\d+$` used on the `full/half/quarter` bathroom
string: exactly two slashes separating three non-empty digit runs. -/
def bathFormatOk (s : String) : Bool :=
  match splitSlash s.data with
  | [a, b, c] =>
      (!a.isEmpty) && (!b.isEmpty) && (!c.isEmpty) &&
        a.all Char.isDigit && b.all Char.isDigit && c.all Char.isDigit
  | _ => false

/-! ## Data model (types/property.ts as read by the validator) -/

/-- Trend direction strings `'increasing' | 'decreasing' | 'stable'`. -/
inductive Direction where
  | increasing
  | decreasing
  | stable
deriving DecidableEq

/-- `PricePoint`: `{date: "YYYY-MM", price, volume}`. -/
structure PricePoint where
  date : String
  price : ℚ
  volume : ℚ
deriving DecidableEq

/-- One `seasonality` entry: `{month, averagePrice, salesVolume}`. -/
structure SeasonalityData where
  month : ℚ
  averagePrice : ℚ
  salesVolume : ℚ
deriving DecidableEq

/-- `ForecastMetric`: `{priceChange, confidence}`. -/
structure ForecastMetric where
  priceChange : ℚ
  confidence : ℚ
deriving DecidableEq

/-- The forecast triple. -/
structure Forecast where
  nextMonth : ForecastMetric
  nextQuarter : ForecastMetric
  nextYear : ForecastMetric
deriving DecidableEq

/-- `MarketTrends`. -/
structure MarketTrends where
  priceHistory : List PricePoint
  seasonality : List SeasonalityData
  forecast : Forecast
deriving DecidableEq

/-- School type strings `'elementary' | 'middle' | 'high'`. -/
inductive SchoolType where
  | elementary
  | middle
  | high
deriving DecidableEq

/-- `SchoolInfo`. -/
structure SchoolInfo where
  name : String
  rating : ℚ
  type : SchoolType
  distance : ℚ
  enrollment : ℚ
  studentTeacherRatio : ℚ
deriving DecidableEq

/-- `DemographicMetric`: `{value, trend, percentChange}`. -/
structure DemographicMetric where
  value : ℚ
  trend : Direction
  percentChange : ℚ
deriving DecidableEq

/-- The `educationLevels` map with its three fixed keys. -/
structure EducationLevels where
  highSchool : DemographicMetric
  bachelors : DemographicMetric
  graduate : DemographicMetric
deriving DecidableEq

/-- `DemographicAnalysis` (field order = object key order in the source). -/
structure DemographicAnalysis where
  population : DemographicMetric
  medianAge : DemographicMetric
  medianIncome : DemographicMetric
  employmentRate : DemographicMetric
  educationLevels : EducationLevels
deriving DecidableEq

/-- `Statistics`: the 20 numeric aggregate fields, in source order. -/
structure Statistics where
  averageListPrice : ℚ
  medianListPrice : ℚ
  averageSoldPrice : ℚ
  medianSoldPrice : ℚ
  averageDaysOnMarket : ℚ
  medianDaysOnMarket : ℚ
  totalActiveListings : ℚ
  totalClosedSales : ℚ
  averagePrice : ℚ
  medianPrice : ℚ
  pricePerSquareFoot : ℚ
  inventoryLevel : ℚ
  daysOfInventory : ℚ
  absorptionRate : ℚ
  newListings : ℚ
  closedListings : ℚ
  pendingListings : ℚ
  canceledListings : ℚ
  listToSoldRatio : ℚ
  monthsOfSupply : ℚ
deriving DecidableEq

/-- `Property` as the assertion validator reads it (the fields its
`isProperty` guard requires). -/
structure PropertyV where
  mlsNumber : String
  address : String
  city : String
  listPrice : ℚ
  bedrooms : ℚ
  bathrooms : String
  sqft : ℚ
  yearBuilt : ℚ
  garage : String
  pool : Bool
  acres : ℚ
  pricePerSqft : ℚ
deriving DecidableEq

/-- The slice of `MLSReport` that `validateMLSReport` (assertion surface)
dereferences; fields the function never reads are omitted. -/
structure ReportV where
  marketTrends : MarketTrends
  schoolDistricts : List SchoolInfo
  demographicAnalysis : DemographicAnalysis
  activeListings : List PropertyV
  closedListings : List PropertyV
  statistics : Statistics
deriving DecidableEq

/-! ## Assertion-style validator (mls-validation module)

Throwing is modelled with `Except ValidationError`; `throw e` becomes
`.error e` and falling through becomes `.ok ()`.  The `is…` structure
type-guards of the source hold by construction in the typed model, so only
the value checks remain. -/

/-- The thrown `ValidationError {message, field}`. -/
structure ValidationError where
  message : String
  field : String
deriving DecidableEq

/-- `validatePricePoint`. -/
def validatePricePoint (p : PricePoint) : Except ValidationError Unit :=
  if dateFormatOk p.date = false then
    .error ⟨"Invalid date format. Expected YYYY-MM", "date"⟩
  else if p.price ≤ 0 then
    .error ⟨"Invalid price. Must be a positive number", "price"⟩
  else if p.volume < 0 then
    .error ⟨"Invalid volume. Must be a positive number", "volume"⟩
  else .ok ()

/-- Month-over-month volatility test `Math.abs((cur - prev)/prev) > 0.15`.
Every evaluation inside `validateMarketTrends` has `prev > 0` (the previous
point already passed `validatePricePoint`), so plain `ℚ` division is
faithful there. -/
def priceChangeExceeds (prev cur : ℚ) : Bool :=
  decide (3/20 < |(cur - prev) / prev|)

/-- Seasonality volume test `Math.abs((cur - prev)/prev) > 0.5`, with the JS
division-by-zero cases made explicit: `prev = 0` gives `±Infinity` (absolute
value `Infinity > 0.5`, so the check fires) unless also `cur = 0`, which
gives `NaN` (every comparison false, so the check does not fire). -/
def volumeChangeExceeds (prev cur : ℚ) : Bool :=
  if prev = 0 then decide (cur ≠ 0) else decide (1/2 < |(cur - prev) / prev|)

/-- The `forEach` body of the price-history loop for `index ≥ 1`:
`prev` is the previous point (already validated), `i` the current index. -/
def checkHistoryLoop (prev : PricePoint) (i : ℕ) :
    List PricePoint → Except ValidationError Unit
  | [] => .ok ()
  | p :: rest =>
    match validatePricePoint p with
    | .error e => .error e
    | .ok _ =>
      if jsStrLe p.date prev.date then
        .error ⟨"Price history must be in chronological order",
                ("priceHistory[") ++ toString i ++ ("].date")⟩
      else if priceChangeExceeds prev.price p.price then
        .error ⟨"Price volatility exceeds market threshold",
                ("priceHistory[") ++ toString i ++ ("].price")⟩
      else checkHistoryLoop p (i + 1) rest

/-- The price-history chronology/volatility loop of `validateMarketTrends`. -/
def checkHistory : List PricePoint → Except ValidationError Unit
  | [] => .ok ()
  | p :: rest =>
    match validatePricePoint p with
    | .error e => .error e
    | .ok _ => checkHistoryLoop p 1 rest

/-- The seasonality loop body for `index ≥ 1`. -/
def checkSeasonalityLoop (prev : SeasonalityData) (i : ℕ) :
    List SeasonalityData → Except ValidationError Unit
  | [] => .ok ()
  | s :: rest =>
    if s.month < 1 ∨ 12 < s.month then
      .error ⟨"Invalid month. Must be between 1 and 12",
              ("seasonality[") ++ toString i ++ ("].month")⟩
    else if volumeChangeExceeds prev.salesVolume s.salesVolume then
      .error ⟨"Invalid seasonal volume pattern",
              ("seasonality[") ++ toString i ++ ("].salesVolume")⟩
    else checkSeasonalityLoop s (i + 1) rest

/-- The seasonality loop of `validateMarketTrends` (month range is checked
for every entry, the volume change only from index 1 on). -/
def checkSeasonality : List SeasonalityData → Except ValidationError Unit
  | [] => .ok ()
  | s :: rest =>
    if s.month < 1 ∨ 12 < s.month then
      .error ⟨"Invalid month. Must be between 1 and 12", "seasonality[0].month"⟩
    else checkSeasonalityLoop s 1 rest

/-- The forecast loop of `validateMarketTrends`: `Object.entries` iterates
`nextMonth`, `nextQuarter`, `nextYear` in insertion order; each entry's
confidence is checked against `[MIN_CONFIDENCE, MAX_CONFIDENCE] = [0.5, 1]`,
and for `nextYear` additionally `|priceChange| ≤ MAX_YOY_GROWTH = 0.30`. -/
def checkForecast (f : Forecast) : Except ValidationError Unit :=
  if f.nextMonth.confidence < 1/2 ∨ 1 < f.nextMonth.confidence then
    .error ⟨"Invalid confidence value", "forecast.nextMonth.confidence"⟩
  else if f.nextQuarter.confidence < 1/2 ∨ 1 < f.nextQuarter.confidence then
    .error ⟨"Invalid confidence value", "forecast.nextQuarter.confidence"⟩
  else if f.nextYear.confidence < 1/2 ∨ 1 < f.nextYear.confidence then
    .error ⟨"Invalid confidence value", "forecast.nextYear.confidence"⟩
  else if 3/10 < |f.nextYear.priceChange| then
    .error ⟨"Annual growth rate exceeds historical bounds",
            "forecast.nextYear.priceChange"⟩
  else .ok ()

/-- `validateMarketTrends`. -/
def validateMarketTrends (t : MarketTrends) : Except ValidationError Unit :=
  match checkHistory t.priceHistory with
  | .error e => .error e
  | .ok _ =>
    match checkSeasonality t.seasonality with
    | .error e => .error e
    | .ok _ => checkForecast t.forecast

/-- `validateSchoolInfo` (the `type ∈ {elementary, middle, high}` check of the
source holds by typing). -/
def validateSchoolInfo (s : SchoolInfo) : Except ValidationError Unit :=
  if s.rating < 0 ∨ 10 < s.rating then
    .error ⟨"Invalid school rating. Must be between 0 and 10", "rating"⟩
  else if s.distance < 0 ∨ 10 < s.distance then
    .error ⟨"School district outside reasonable distance", "distance"⟩
  else if s.studentTeacherRatio < 10 ∨ 30 < s.studentTeacherRatio then
    .error ⟨"Invalid student-teacher ratio", "studentTeacherRatio"⟩
  else .ok ()

/-- `validateDemographicMetric` (trend membership and `typeof percentChange`
hold by typing). -/
def validateDemographicMetric (m : DemographicMetric) : Except ValidationError Unit :=
  if m.value ≤ 0 then
    .error ⟨"Invalid demographic value. Must be a positive number", "value"⟩
  else .ok ()

/-- `validateProperty`.  In the last check `sqft > 0` already holds, so the
`listPrice / sqft` division is faithful in `ℚ`. -/
def validateProperty (v : PropertyV) : Except ValidationError Unit :=
  if v.listPrice ≤ 0 then
    .error ⟨"Invalid list price. Must be a positive number", "listPrice"⟩
  else if v.sqft ≤ 0 then
    .error ⟨"Invalid square footage. Must be a positive number", "sqft"⟩
  else if jsTrim v.address = "" then
    .error ⟨"Invalid address", "address"⟩
  else if v.bedrooms ≤ 0 then
    .error ⟨"Invalid number of bedrooms. Must be a positive number", "bedrooms"⟩
  else if bathFormatOk v.bathrooms = false then
    .error ⟨"Invalid bathroom format. Must be in format \"full/half/quarter\"",
            "bathrooms"⟩
  else if 1 < |v.listPrice / v.sqft - v.pricePerSqft| then
    .error ⟨"Invalid price per square foot", "pricePerSqft"⟩
  else .ok ()

/-- The school-district loop of `validateMLSReport`: each failure is caught
and re-thrown with the index and the dotted path prepended. -/
def checkSchools (i : ℕ) : List SchoolInfo → Except ValidationError Unit
  | [] => .ok ()
  | s :: rest =>
    match validateSchoolInfo s with
    | .error e =>
      .error ⟨("Invalid school district at index ") ++ toString i ++ (": ") ++ e.message,
              ("schoolDistricts[") ++ toString i ++ ("].") ++ e.field⟩
    | .ok _ => checkSchools (i + 1) rest

/-- One named demographic metric of the `Object.entries` loop, with the
path-prefixed re-throw for a plain (non-`educationLevels`) key. -/
def checkMetric (key : String) (m : DemographicMetric) : Except ValidationError Unit :=
  match validateDemographicMetric m with
  | .error e =>
    .error ⟨("Invalid demographic metric for ") ++ key,
            ("demographicAnalysis.") ++ key ++ (".") ++ e.field⟩
  | .ok _ => .ok ()

/-- One education level of the nested loop, with its re-throw wrapping. -/
def checkEduMetric (level : String) (m : DemographicMetric) : Except ValidationError Unit :=
  match validateDemographicMetric m with
  | .error e =>
    .error ⟨("Invalid demographic metric for educationLevels.") ++ level,
            ("demographicAnalysis.educationLevels.") ++ level ++ (".") ++ e.field⟩
  | .ok _ => .ok ()

/-- The demographic-analysis loop of `validateMLSReport`: `Object.entries`
iterates the keys in insertion order (`population`, `medianAge`,
`medianIncome`, `employmentRate`, `educationLevels`); the education levels
iterate `highSchool`, `bachelors`, `graduate`. -/
def checkDemographics (d : DemographicAnalysis) : Except ValidationError Unit :=
  match checkMetric ("population") d.population with
  | .error e => .error e
  | .ok _ =>
  match checkMetric ("medianAge") d.medianAge with
  | .error e => .error e
  | .ok _ =>
  match checkMetric ("medianIncome") d.medianIncome with
  | .error e => .error e
  | .ok _ =>
  match checkMetric ("employmentRate") d.employmentRate with
  | .error e => .error e
  | .ok _ =>
  match checkEduMetric ("highSchool") d.educationLevels.highSchool with
  | .error e => .error e
  | .ok _ =>
  match checkEduMetric ("bachelors") d.educationLevels.bachelors with
  | .error e => .error e
  | .ok _ => checkEduMetric ("graduate") d.educationLevels.graduate

/-- The property loop of `validateMLSReport` over
`[...activeListings, ...closedListings]`: the bucket named in the wrapped
error is chosen by comparing the running index with `activeListings.length`. -/
def checkProperties (activeLen : ℕ) (i : ℕ) : List PropertyV → Except ValidationError Unit
  | [] => .ok ()
  | p :: rest =>
    match validateProperty p with
    | .error e =>
      let bucket := if i < activeLen then ("activeListings") else ("closedListings")
      .error ⟨("Invalid property in ") ++ bucket ++ (" at index ") ++ toString i
                ++ (": ") ++ e.message,
              bucket ++ ("[") ++ toString i ++ ("].") ++ e.field⟩
    | .ok _ => checkProperties activeLen (i + 1) rest

/-- `validateMarketConditions`: the four sequential report-level market
checks.  Each source `if (outer) { if (inner) throw }` pair is rendered as a
single conjunction guarding the throw. -/
def validateMarketConditions (r : ReportV) : Except ValidationError Unit :=
  let s := r.statistics
  if 6 ≤ s.monthsOfSupply ∧
      (40 < s.absorptionRate ∨ 95/100 < s.listToSoldRatio ∨ s.averageDaysOnMarket < 60) then
    .error ⟨"Inconsistent market condition indicators", "statistics"⟩
  else if s.monthsOfSupply ≤ 3 ∧
      (s.absorptionRate < 60 ∨ s.listToSoldRatio < 98/100 ∨ 30 < s.averageDaysOnMarket) then
    .error ⟨"Inconsistent market condition indicators", "statistics"⟩
  else if s.averageListPrice < s.averageSoldPrice ∧ s.listToSoldRatio < 1 then
    .error ⟨"Inconsistent sale-to-list metrics", "statistics"⟩
  else if 5 < |s.totalActiveListings + s.pendingListings - s.inventoryLevel| then
    .error ⟨"Inconsistent inventory metrics", "statistics"⟩
  else .ok ()

/-- `medianPrice / medianIncome.value > MAX_PRICE_TO_INCOME_RATIO` with the
JS division-by-zero case explicit: a zero income value gives `+Infinity`
(check fires) exactly when `medianPrice > 0`, `NaN`/`-Infinity` (check does
not fire) otherwise. -/
def priceToIncomeExceeds (medianPrice incomeValue : ℚ) : Bool :=
  if incomeValue = 0 then decide (0 < medianPrice)
  else decide (5 < medianPrice / incomeValue)

/-- `Math.abs(averagePrice - medianPrice) / medianPrice > MAX_PRICE_DEVIATION`
with the JS division-by-zero case explicit (`medianPrice = 0` gives
`Infinity` when the prices differ, `NaN` when both are zero). -/
def priceDeviationExceeds (avg median : ℚ) : Bool :=
  if median = 0 then decide (avg ≠ 0)
  else decide (1/2 < |avg - median| / median)

/-- `validateDemographicTrends` (the `isEducationLevels` / `isDemographicMetric`
structure guards hold by typing; `Object.values(educationLevels)` sums the
three fixed levels). -/
def validateDemographicTrends (r : ReportV) : Except ValidationError Unit :=
  let d := r.demographicAnalysis
  if 11/10 < d.educationLevels.highSchool.value + d.educationLevels.bachelors.value
      + d.educationLevels.graduate.value then
    .error ⟨"Invalid education level total", "demographicAnalysis.educationLevels"⟩
  else if 10000 < d.population.value then
    .error ⟨"Population exceeds geographic bounds", "demographicAnalysis.population"⟩
  else if priceToIncomeExceeds r.statistics.medianPrice d.medianIncome.value then
    .error ⟨"Price-to-income ratio exceeds reasonable threshold", "statistics.medianPrice"⟩
  else if d.medianIncome.trend = Direction.decreasing ∧
      d.employmentRate.trend = Direction.decreasing ∧
      r.statistics.medianListPrice < r.statistics.medianPrice then
    .error ⟨"Inconsistent trend indicators", "demographicAnalysis"⟩
  else .ok ()

/-- `validateMLSReport`, the assertion (throwing) surface: market trends,
school districts, demographic metrics, properties, market conditions,
demographic trends, then the three final statistics checks, failing fast. -/
def validateMLSReport (r : ReportV) : Except ValidationError Unit :=
  match validateMarketTrends r.marketTrends with
  | .error e => .error e
  | .ok _ =>
  match checkSchools 0 r.schoolDistricts with
  | .error e => .error e
  | .ok _ =>
  match checkDemographics r.demographicAnalysis with
  | .error e => .error e
  | .ok _ =>
  match checkProperties r.activeListings.length 0 (r.activeListings ++ r.closedListings) with
  | .error e => .error e
  | .ok _ =>
  match validateMarketConditions r with
  | .error e => .error e
  | .ok _ =>
  match validateDemographicTrends r with
  | .error e => .error e
  | .ok _ =>
  if 100 < r.statistics.absorptionRate then
    .error ⟨"Invalid absorption rate. Must be between 0 and 100",
            "statistics.absorptionRate"⟩
  else if priceDeviationExceeds r.statistics.averagePrice r.statistics.medianPrice then
    .error ⟨"Price distribution exceeds normal bounds", "statistics"⟩
  else if r.statistics.averageDaysOnMarket < 5 then
    .error ⟨"Invalid average days on market", "statistics.averageDaysOnMarket"⟩
  else .ok ()

/-! ## Line extractor (mls-data module, `extractMLSData`)

The per-line regular-expression recognizers are abstracted into a token
type: each trimmed non-blank line is classified by the first matching
recognizer, in the fixed source precedence (MLS number, address, price,
bedrooms, bathrooms, square footage), and `skip` stands for a blank line or
a line no recognizer matched (`continue` either way).  The loop, flush and
partition logic below is translated from the source line by line. -/

/-- One classified input line. -/
inductive LineKind where
  /-- `MLS#? (\d+[-\s]*\d*)`: carries the raw capture (digits, `-`, spaces). -/
  | mls (captured : String)
  /-- House-number-plus-street-token line: carries the trimmed capture. -/
  | address (a : String)
  /-- `(List|Price|Sold)(\s*Price)?: $?([\d,]+)`: carries the parsed integer
  and whether the whole line contains `sold` case-insensitively. -/
  | price (amount : ℚ) (sold : Bool)
  /-- `(\d+) (beds|bedrooms|BR)`. -/
  | beds (n : ℚ)
  /-- `(\d+(\.\d+)?) (baths|bathrooms|BA)`: carries the numeric capture text. -/
  | baths (cap : String)
  /-- `([\d,]+) (sqft|sf|square feet)`. -/
  | sqft (n : ℚ)
  /-- A blank line, or a line matching no recognizer. -/
  | skip
deriving DecidableEq

/-- The `Partial<Property>` accumulator: every field optional, `none`
standing for a JS field that is absent from the object. -/
structure PartialProperty where
  mlsNumber : Option String
  address : Option String
  city : Option String
  listPrice : Option ℚ
  soldPrice : Option ℚ
  bedrooms : Option ℚ
  bathrooms : Option String
  sqft : Option ℚ
  yearBuilt : Option ℚ
  garage : Option String
  pool : Option Bool
  acres : Option ℚ
  pricePerSqft : Option ℚ
  daysOnMarket : Option ℚ
deriving DecidableEq

/-- The initial `currentProperty = {}`. -/
def emptyProperty : PartialProperty :=
  ⟨none, none, none, none, none, none, none, none, none, none, none, none, none, none⟩

/-- `.replace(/[-\s]/g, '')` on the MLS capture: drop hyphens and all
whitespace. -/
def stripSeps (s : String) : String :=
  ⟨s.data.filter (fun c => !(c = '-' || c.isWhitespace))⟩

/-- The fresh accumulator built on an MLS-number line (field values and
defaults exactly as the source literal; `address`, `soldPrice`,
`daysOnMarket` are not in the literal, hence absent). -/
def freshProperty (captured : String) : PartialProperty :=
  { emptyProperty with
      mlsNumber := some (stripSeps captured)
      city := some ("Plano")
      bedrooms := some 0
      bathrooms := some ("0/0/0")
      sqft := some 0
      yearBuilt := some 0
      garage := some ("")
      pool := some false
      acres := some 0
      pricePerSqft := some 0
      listPrice := some 0 }

/-- `Object.keys(currentProperty).length > 0`. -/
def hasKeys (p : PartialProperty) : Bool :=
  p.mlsNumber.isSome || p.address.isSome || p.city.isSome || p.listPrice.isSome ||
    p.soldPrice.isSome || p.bedrooms.isSome || p.bathrooms.isSome || p.sqft.isSome ||
    p.yearBuilt.isSome || p.garage.isSome || p.pool.isSome || p.acres.isSome ||
    p.pricePerSqft.isSome || p.daysOnMarket.isSome

/-- The flush guard `Object.keys(currentProperty).length > 0 &&
currentProperty.mlsNumber` (string truthiness: present and non-empty). -/
def flushable (p : PartialProperty) : Bool :=
  hasKeys p && (match p.mlsNumber with
                | some s => !s.isEmpty
                | none => false)

/-- One loop iteration: the next accumulator and the properties pushed by
this line (empty or a singleton).  On an MLS line the old accumulator is
flushed if eligible and replaced; field lines mutate the accumulator (the
source guards them with `&& currentProperty`, which is always truthy for an
object).  On a square-footage line `pricePerSqft` is recomputed when
`listPrice` is truthy.  (A truthy `listPrice` with a zero `sqft` capture
would give `Math.round(Infinity)` in JS; `jsRound (p / 0) = 0` here — noted,
no claim depends on it.) -/
def stepToken (st : PartialProperty) : LineKind → PartialProperty × List PartialProperty
  | .mls captured =>
      (freshProperty captured, if flushable st then [st] else [])
  | .address a => ({ st with address := some a }, [])
  | .price amount sold =>
      (if sold then { st with soldPrice := some amount }
       else { st with listPrice := some amount }, [])
  | .beds n => ({ st with bedrooms := some n }, [])
  | .baths cap => ({ st with bathrooms := some (cap ++ ("/0/0")) }, [])
  | .sqft n =>
      (match st.listPrice with
       | some p =>
         if p = 0 then { st with sqft := some n }
         else { st with sqft := some n, pricePerSqft := some ((jsRound (p / n) : ℚ)) }
       | none => { st with sqft := some n }, [])
  | .skip => (st, [])

/-- The whole line loop: the properties pushed, in order, and the final
accumulator. -/
def runLines (st : PartialProperty) : List LineKind → List PartialProperty × PartialProperty
  | [] => ([], st)
  | l :: rest =>
    let s := stepToken st l
    let r := runLines s.1 rest
    (s.2 ++ r.1, r.2)

/-- `properties`: the loop result plus the final flush of a pending eligible
accumulator. -/
def extractProps (lines : List LineKind) : List PartialProperty :=
  let r := runLines emptyProperty lines
  r.1 ++ (if flushable r.2 then [r.2] else [])

/-- JS truthiness of `property.soldPrice`: present and nonzero. -/
def soldTruthy (p : PartialProperty) : Bool :=
  match p.soldPrice with
  | some v => decide (v ≠ 0)
  | none => false

/-- The `forEach` that splits `properties` into
`(activeListings, closedListings)`, pushing in order. -/
def partitionProps : List PartialProperty → List PartialProperty × List PartialProperty
  | [] => ([], [])
  | p :: rest =>
    let r := partitionProps rest
    if soldTruthy p then (r.1, p :: r.2) else (p :: r.1, r.2)

/-! ## Statistics synthesizer (the statistics block of `extractMLSData`) -/

/-- JS `[...prices].sort((a, b) => a - b)`: numeric ascending.  For numbers
the result is the unique ascending rearrangement, so any sorting algorithm
is extensionally faithful; insertion sort is used because it evaluates. -/
def sortAsc (xs : List ℚ) : List ℚ := List.insertionSort (· ≤ ·) xs

/-- `calculateAverage`: `prices.length ? Math.round(sum / length) : 0`. -/
def calculateAverage (xs : List ℚ) : ℚ :=
  if xs.length = 0 then 0 else (jsRound (xs.sum / xs.length) : ℚ)

/-- `calculateMedian`: 0 for empty input, the middle element of the sorted
list for odd length, the rounded mean of the two middle elements for even
length. -/
def calculateMedian (xs : List ℚ) : ℚ :=
  if xs.length = 0 then 0
  else
    let sorted := sortAsc xs
    let mid := xs.length / 2
    if xs.length % 2 = 1 then sorted.getD mid 0
    else (jsRound ((sorted.getD (mid - 1) 0 + sorted.getD mid 0) / 2) : ℚ)

/-- `activeListings.map(p => p.listPrice).filter(p => p > 0)` (an absent
`listPrice` fails `> 0` just like a non-positive one). -/
def activeListPricesOf (active : List PartialProperty) : List ℚ :=
  (active.map (fun p => p.listPrice.getD 0)).filter (fun v => 0 < v)

/-- `closedListings.map(p => p.soldPrice || 0).filter(p => p > 0)`. -/
def soldPricesOf (closed : List PartialProperty) : List ℚ :=
  (closed.map (fun p => p.soldPrice.getD 0)).filter (fun v => 0 < v)

/-- `closedListings.map(p => p.daysOnMarket || 0)`. -/
def domListOf (closed : List PartialProperty) : List ℚ :=
  closed.map (fun p => p.daysOnMarket.getD 0)

/-- The divisor of `absorptionRate`: `activeListings.length || 1`. -/
def absorptionDenom (active : List PartialProperty) : ℚ :=
  jsOr (active.length : ℚ) 1

/-- The divisor of `monthsOfSupply`: `(closedListings.length / 3) || 1`. -/
def monthsSupplyDenom (closed : List PartialProperty) : ℚ :=
  jsOr ((closed.length : ℚ) / 3) 1

/-- The divisor of the `listToSoldRatio` division, taken whenever
`soldPrices` is non-empty: `calculateAverage(activeListPrices)`.  Unlike the
other two this one is *not* clamped or guarded. -/
def listToSoldDenom (active : List PartialProperty) : ℚ :=
  calculateAverage (activeListPricesOf active)

/-- The `statistics` object literal of `extractMLSData`, field by field.
The `pricePerSqft` of every flushed property is present (the fresh
accumulator defaults it), so `getD 0` in the `pricePerSquareFoot` average is
exact for extractor output. -/
def statisticsOf (active closed : List PartialProperty) : Statistics :=
  let activeListPrices := activeListPricesOf active
  let soldPrices := soldPricesOf closed
  { averageListPrice := calculateAverage activeListPrices
    medianListPrice := calculateMedian activeListPrices
    averageSoldPrice := calculateAverage soldPrices
    medianSoldPrice := calculateMedian soldPrices
    averageDaysOnMarket := calculateAverage (domListOf closed)
    medianDaysOnMarket := calculateMedian (domListOf closed)
    totalActiveListings := (active.length : ℚ)
    totalClosedSales := (closed.length : ℚ)
    averagePrice := calculateAverage (activeListPrices ++ soldPrices)
    medianPrice := calculateMedian (activeListPrices ++ soldPrices)
    pricePerSquareFoot := calculateAverage ((active ++ closed).map (fun p => p.pricePerSqft.getD 0))
    inventoryLevel := (active.length : ℚ)
    daysOfInventory := 90
    absorptionRate := (closed.length : ℚ) / absorptionDenom active
    newListings := (jsRound ((active.length : ℚ) * (25/100)) : ℚ)
    closedListings := (closed.length : ℚ)
    pendingListings := (jsRound ((active.length : ℚ) * (10/100)) : ℚ)
    canceledListings := (jsRound ((active.length : ℚ) * (5/100)) : ℚ)
    listToSoldRatio :=
      if soldPrices.length ≠ 0 then calculateAverage soldPrices / listToSoldDenom active
      else 1
    monthsOfSupply := (active.length : ℚ) / monthsSupplyDenom closed }

/-! ## The full extractor result (the big return literal of `extractMLSData`) -/

/-- JS `x || d` where `x` is an optional number field access. -/
def jsOrOpt (o : Option ℚ) (d : ℚ) : ℚ :=
  match o with
  | some v => if v = 0 then d else v
  | none => d

/-- JS `x || d` where `x` is an optional string field access. -/
def jsOrOptS (o : Option String) (d : String) : String :=
  match o with
  | some s => if s = "" then d else s
  | none => d

/-- The structured address of the report literal. -/
structure ExtractAddress where
  street : String
  city : String
  state : String
  zipCode : String
deriving DecidableEq

/-- The `schoolDistrict` placeholder of the report literal. -/
structure SchoolDistrictInfo where
  name : String
  rating : ℚ
  elementary : List String
  middle : List String
  high : List String
deriving DecidableEq

/-- The legacy flat `demographics` placeholder. -/
structure FlatDemographics where
  population : ℚ
  medianAge : ℚ
  medianIncome : ℚ
  employmentRate : ℚ
  highSchool : ℚ
  bachelors : ℚ
  graduate : ℚ
deriving DecidableEq

/-- The `MLSReport` shape produced by the extractor. -/
structure MLSReportX where
  mlsNumber : String
  listPrice : ℚ
  propertyType : String
  bedrooms : ℚ
  bathrooms : ℚ
  squareFeet : ℚ
  yearBuilt : ℚ
  lotSize : ℚ
  description : String
  address : ExtractAddress
  features : List String
  photos : List String
  marketTrends : MarketTrends
  activeListings : List PartialProperty
  closedListings : List PartialProperty
  statistics : Statistics
  schoolDistrict : SchoolDistrictInfo
  demographics : FlatDemographics
  schoolDistricts : List SchoolInfo
  demographicAnalysis : DemographicAnalysis
deriving DecidableEq

/-- The zeroed `marketTrends` placeholder of the report literal. -/
def defaultMarketTrends : MarketTrends :=
  ⟨[], [], ⟨⟨0, 0⟩, ⟨0, 0⟩, ⟨0, 0⟩⟩⟩

/-- The zeroed `demographicAnalysis` placeholder of the report literal. -/
def defaultDemographicAnalysis : DemographicAnalysis :=
  ⟨⟨0, .stable, 0⟩, ⟨0, .stable, 0⟩, ⟨0, .stable, 0⟩, ⟨0, .stable, 0⟩,
    ⟨⟨0, .stable, 0⟩, ⟨0, .stable, 0⟩, ⟨0, .stable, 0⟩⟩⟩

/-- `extractMLSData` over classified lines: run the loop, flush, partition,
synthesize statistics, and assemble the report literal. -/
def extractMLSData (lines : List LineKind) : MLSReportX :=
  let properties := extractProps lines
  let buckets := partitionProps properties
  let activeListings := buckets.1
  let closedListings := buckets.2
  { mlsNumber := jsOrOptS (properties.head?.bind (fun p => p.mlsNumber)) ("UNKNOWN")
    listPrice := jsOrOpt (properties.head?.bind (fun p => p.listPrice)) 0
    propertyType := "Single Family"
    bedrooms := jsOrOpt (properties.head?.bind (fun p => p.bedrooms)) 0
    bathrooms := 0
    squareFeet := jsOrOpt (properties.head?.bind (fun p => p.sqft)) 0
    yearBuilt := jsOrOpt (properties.head?.bind (fun p => p.yearBuilt)) 0
    lotSize := jsOrOpt (properties.head?.bind (fun p => p.acres)) 0
    description := "Property details extracted from MLS data"
    address := ⟨jsOrOptS (properties.head?.bind (fun p => p.address)) (""),
                jsOrOptS (properties.head?.bind (fun p => p.city)) (""),
                "TX", "00000"⟩
    features := []
    photos := []
    marketTrends := defaultMarketTrends
    activeListings := activeListings
    closedListings := closedListings
    statistics := statisticsOf activeListings closedListings
    schoolDistrict := ⟨"Unknown School District", 0, [], [], []⟩
    demographics := ⟨0, 0, 0, 0, 0, 0, 0⟩
    schoolDistricts := []
    demographicAnalysis := defaultDemographicAnalysis }

/-! ## Market forecast engine (PDFUpload helpers) -/

/-- A moving-average entry `{date, price}`. -/
structure MAPoint where
  date : String
  price : ℚ
deriving DecidableEq

/-- The trend argument of `generatePredictions`. -/
structure Trend where
  strength : ℚ
  direction : Direction
deriving DecidableEq

/-- One generated prediction; the `date` label is presentational (an ISO
month string) and carries no information used by any claim, so only the
numeric payload is modelled. -/
structure Prediction where
  price : ℚ
  confidence : ℚ
deriving DecidableEq

/-- `new Date(date).getMonth()` for a `"YYYY-MM"` string: the zero-based
month, read from the two characters after the dash.  (A malformed date gives
an invalid JS `Date` whose month is `NaN`; defaulted to 0 here — the claims
only evaluate well-formed dates.) -/
def monthIndexOf (date : String) : ℕ :=
  match date.data.drop 5 with
  | [a, b] => ((a.toNat - 48) * 10 + (b.toNat - 48)) - 1
  | _ => 0

/-- The seasonal factor `seasonality[month] ? seasonality[month]! /
seasonality[lastMonth]! : 1`: a missing or zero entry for the target month
is falsy and yields 1; otherwise the ratio is taken (a missing last-month
entry coerces to 0, giving `Infinity` in JS — modelled as the `ℚ` value
`v / 0 = 0`; unreachable in the claims, which use an all-`none` table). -/
def seasonalFactorOf (seasonality : List (Option ℚ)) (month lastMonth : ℕ) : ℚ :=
  match seasonality.getD month none with
  | none => 1
  | some v => if v = 0 then 1 else v / ((seasonality.getD lastMonth none).getD 0)

/-- The trend factor `1 ± 0.01 · strength · (i + 1)` (1 when stable). -/
def trendFactorOf (trend : Trend) (i : ℕ) : ℚ :=
  match trend.direction with
  | .stable => 1
  | .increasing => 1 + (1/100) * trend.strength * ((i : ℚ) + 1)
  | .decreasing => 1 - (1/100) * trend.strength * ((i : ℚ) + 1)

/-- The momentum factor: last short MA over last long MA when both lists are
non-empty, else 1. -/
def maFactorOf (shortMA longMA : List MAPoint) : ℚ :=
  match shortMA.getLast?, longMA.getLast? with
  | some s, some l => s.price / l.price
  | _, _ => 1

/-- `Math.max(0, 1 - 0.1*(i+1) - 0.1*(1/trend.strength))`.  The division is
*not* guarded in the source: with `strength = 0` JS computes `1/0 = Infinity`
and the outer `max` clamps `-Infinity` to 0, which the first branch renders
exactly. -/
def confidenceOf (strength : ℚ) (i : ℕ) : ℚ :=
  if strength = 0 then 0
  else max 0 (1 - (1/10) * ((i : ℚ) + 1) - (1/10) * (1 / strength))

/-- `generatePredictions`.  The source indexes `history[history.length - 1]`
unconditionally; its only caller guards against empty history, and the model
defaults that access.  Months advance by `setMonth`, i.e. modulo 12. -/
def generatePredictions (history : List PricePoint) (shortMA longMA : List MAPoint)
    (trend : Trend) (seasonality : List (Option ℚ)) (months : ℕ) : List Prediction :=
  let lastPoint := history.getLast?.getD ⟨"", 0, 0⟩
  let lastMonth := monthIndexOf lastPoint.date
  (List.range months).map (fun i =>
    let month := (lastMonth + i + 1) % 12
    let seasonalFactor := seasonalFactorOf seasonality month lastMonth
    let trendFactor := trendFactorOf trend i
    let maFactor := maFactorOf shortMA longMA
    ⟨lastPoint.price * trendFactor * seasonalFactor * maFactor,
      confidenceOf trend.strength i⟩)

/-- `priceChanges`: index 0 maps to 0, index `i ≥ 1` to the percentage
change from the previous point — the tail of the source's indexed `map`. -/
def realChanges (prev : PricePoint) : List PricePoint → List ℚ
  | [] => []
  | p :: rest => ((p.price - prev.price) / prev.price) * 100 :: realChanges p rest

/-- The full `priceChanges` array, artificial leading 0 included. -/
def priceChangesOf : List PricePoint → List ℚ
  | [] => []
  | p :: rest => 0 :: realChanges p rest

/-- `avgChange`: the sum of `priceChanges` divided by `priceChanges.length - 1`
(the leading 0 contributes nothing to the sum, so this is the mean of the
real changes).  Only evaluated with at least 2 points. -/
def avgChangeOf (recentPrices : List PricePoint) : ℚ :=
  (priceChangesOf recentPrices).sum / ((priceChangesOf recentPrices).length - 1 : ℚ)

/-- The square of the source's `volatility`: mean squared deviation of the
*padded* change array (leading 0 included) from `avgChange`, divided by the
*full* length.  The source takes `Math.sqrt` of this; the square is kept so
the value stays in `ℚ` — `√` is strictly monotone on `[0, ∞)`, so zero-ness
and comparisons transfer. -/
def volatilitySqOf (recentPrices : List PricePoint) : ℚ :=
  ((priceChangesOf recentPrices).map (fun v => (v - avgChangeOf recentPrices) ^ 2)).sum
    / ((priceChangesOf recentPrices).length : ℚ)

/-- `calculateTrendStrength` result with the strength kept squared:
`strength = |avgChange| / volatility`, so `strengthSq = avgChange² /
volatilitySq`.  (`volatilitySq = 0` forces every padded change — the leading
0 included — to equal the mean, hence `avgChange = 0`, where JS produces
`0/0 = NaN`; the `ℚ` model gives 0 there.) -/
structure TrendSq where
  strengthSq : ℚ
  direction : Direction
deriving DecidableEq

/-- `calculateTrendStrength` (squared-strength representation). -/
def calculateTrendStrength (recentPrices : List PricePoint) : TrendSq :=
  if recentPrices.length < 2 then ⟨0, .stable⟩
  else
    let avgChange := avgChangeOf recentPrices
    ⟨avgChange ^ 2 / volatilitySqOf recentPrices,
      if 0 < avgChange then .increasing
      else if avgChange < 0 then .decreasing
      else .stable⟩

/-- Modelled from the spec: the *population standard deviation of the
month-over-month percentage changes* named by the specification — squared:
the mean squared deviation of the `n - 1` real changes from *their own*
mean, divided by `n - 1`.  Kept for refinement comparison with
`volatilitySqOf`. -/
def specVolatilitySqOf (recentPrices : List PricePoint) : ℚ :=
  match recentPrices with
  | [] => 0
  | p :: rest =>
    let cs := realChanges p rest
    let mean := cs.sum / (cs.length : ℚ)
    ((cs.map (fun v => (v - mean) ^ 2)).sum) / (cs.length : ℚ)

/-- Modelled from the spec: `strength = |avg| / volatility`, 0 when the
volatility is 0 or fewer than 2 points are given — squared. -/
def specStrengthSqOf (recentPrices : List PricePoint) : ℚ :=
  if recentPrices.length < 2 then 0
  else if specVolatilitySqOf recentPrices = 0 then 0
  else (avgChangeOf recentPrices) ^ 2 / specVolatilitySqOf recentPrices

/-! ## PDF pipeline orchestrator (`processPDF`) -/

/-- A JS thrown value as the catch block discriminates it: an `Error`
carrying its `.message`, or any non-`Error` value. -/
inductive JsThrown where
  | errObj (message : String)
  | nonError
deriving DecidableEq

/-- The discriminated `ProcessingResult`. -/
structure ProcessingResult where
  success : Bool
  data : Option MLSReportX
  error : Option String
  rawText : Option String
deriving DecidableEq

/-- The catch block of `processPDF`: an `Error` whose message is exactly
`"Empty PDF"` is passed through verbatim; any other `Error` yields its
message; a non-`Error` value yields the generic string.  All three branches
leave `rawText` unset. -/
def handleCatch : JsThrown → ProcessingResult
  | .errObj m =>
    if m = "Empty PDF" then ⟨false, none, some ("Empty PDF"), none⟩
    else ⟨false, none, some m, none⟩
  | .nonError => ⟨false, none, some ("Unknown error during PDF processing"), none⟩

/-- `processPDF` over the outcome of the awaited `pdf(fileBuffer)` call:
either a thrown value, or the extracted text.  `classify` abstracts the
line-splitting and recognizer layer feeding `extractMLSData`.  A falsy
`pdfData.text` raises `PDFProcessingError('Failed to extract text from
PDF')` *inside* the `try`, so it lands in the same catch block. -/
def processPDF (classify : String → List LineKind) :
    Except JsThrown String → ProcessingResult
  | .error e => handleCatch e
  | .ok text =>
    if text = "" then handleCatch (.errObj ("Failed to extract text from PDF"))
    else
      let mlsData := extractMLSData (classify text)
      if mlsData.activeListings.length = 0 ∧ mlsData.closedListings.length = 0 then
        ⟨false, none, some ("No listings found in PDF"), some text⟩
      else ⟨true, some mlsData, none, some text⟩

/-! ## Concrete fixtures used by witnesses and counterexamples -/

/-- The single active listing of the spec's statistics scenario:
`{listPrice: 500000, sqft: 2000, pricePerSqft: 250}`. -/
def c8prop : PartialProperty :=
  { emptyProperty with listPrice := some 500000, sqft := some 2000, pricePerSqft := some 250 }

/-- A closed listing with a sold price, for the zero-divisor scenario. -/
def c5closed : PartialProperty :=
  { emptyProperty with mlsNumber := some ("1"), soldPrice := some 500000 }

/-- Does a classified line carry an MLS number? -/
def isMlsLine : LineKind → Bool
  | .mls _ => true
  | _ => false

/-- The loop result together with the final flush (so that
`extractProps lines = finishRun emptyProperty lines` definitionally). -/
def finishRun (s : PartialProperty) (lines : List LineKind) : List PartialProperty :=
  (runLines s lines).1 ++
    (if flushable (runLines s lines).2 then [(runLines s lines).2] else [])

/-- Input producing a property whose `soldPrice` is defined but zero:
`MLS# 123` then `Sold Price: $0`. -/
def c6lines : List LineKind := [.mls ("123"), .price 0 true]

/-- The property that run extracts. -/
def c6prop : PartialProperty := { freshProperty ("123") with soldPrice := some 0 }

/-- Fixture for the C10 witness. -/
def c10lines : List LineKind := [.mls ("77"), .price 100 false]

/-- Price history ending (and starting) at 500000. -/
def c3history : List PricePoint := [⟨"2024-01", 500000, 100⟩]

/-- "No seasonality data": `analyzeSeasonality([])`, twelve `null`s. -/
def c3noSeason : List (Option ℚ) := List.replicate 12 none

/-- The given trend `{strength: 0, direction: 'stable'}`. -/
def c3trend : Trend := ⟨0, .stable⟩

/-- A forecast whose confidences *increase* with horizon, all inside
`[0.5, 1]`. -/
def c1trends : MarketTrends := ⟨[], [], ⟨⟨0, 1/2⟩, ⟨0, 3/5⟩, ⟨0, 7/10⟩⟩⟩

/-- Two ascending points: the single real change is +10%. -/
def c4points : List PricePoint := [⟨"2024-01", 100, 0⟩, ⟨"2024-02", 110, 0⟩]

/-- A structurally valid price point: well-formed date, positive price,
non-negative volume (the per-point checks of `validatePricePoint`). -/
def pointOk (p : PricePoint) : Prop :=
  dateFormatOk p.date = true ∧ 0 < p.price ∧ 0 ≤ p.volume

/-- One chronology/volatility step of the claim's hypothesis: strictly
increasing date and month-over-month change of at most 15%. -/
def stepOk (a b : PricePoint) : Prop :=
  jsStrLt a.date b.date = true ∧ |(b.price - a.price) / a.price| ≤ 3/20

/-- The all-zero statistics record. -/
def zeroStatistics : Statistics :=
  ⟨0, 0, 0, 0, 0, 0, 0, 0, 0, 0, 0, 0, 0, 0, 0, 0, 0, 0, 0, 0⟩

/-- A report satisfying the claim's hypothesis vacuously: no properties, no
price history — but carrying the extractor's zeroed placeholder forecast. -/
def c2report : ReportV :=
  ⟨defaultMarketTrends, [], defaultDemographicAnalysis, [], [], zeroStatistics⟩

/-- A property meeting the claim's hypothesis: `500000 / 2000 = 250`
exactly. -/
def c2prop : PropertyV :=
  ⟨"1", "123 Main St", "Plano", 500000, 3, "2/0/0", 2000, 2000, "", false, 0, 250⟩

/-! ## Arithmetic bridges -/

theorem jsRound_def (q : ℚ) : jsRound q = ⌊q + 1/2⌋ := rfl

/-- Bridge from the executable `Rat.floor` to the `Int.floor` API (they are
definitionally equal on `ℚ`); stated as a rewrite for evaluation proofs. -/
theorem ratFloor_eq_intFloor (q : ℚ) : Rat.floor q = ⌊q⌋ := rfl

/-! ## C9 — orchestrator error handling -/

/-- C9: for every input on which the underlying text-to-report conversion
throws, `processPDF` returns a `{success: false}` result instead of
propagating; an `Error` with message exactly `"Empty PDF"` yields the error
string `"Empty PDF"` verbatim with no `rawText`; any other `Error` yields
its `.message`, and a non-`Error` thrown value yields
`"Unknown error during PDF processing"` — `rawText` unset in every case. -/
theorem C9_processPDF_catch (classify : String → List LineKind) (e : JsThrown) :
    (processPDF classify (.error e)).success = false ∧
    (processPDF classify (.error e)).data = none ∧
    (processPDF classify (.error e)).rawText = none ∧
    (processPDF classify (.error e)).error =
      some (match e with
            | .errObj m => m
            | .nonError => "Unknown error during PDF processing") := by
  cases e with
  | errObj m =>
    by_cases h : m = "Empty PDF" <;>
      simp [processPDF, handleCatch, h]
  | nonError => simp [processPDF, handleCatch]

/-! ## C8 — the concrete statistics scenario -/

/-- C8: statistics synthesized from one active listing
`{listPrice: 500000, sqft: 2000, pricePerSqft: 250}` and no closed listings
give `averageListPrice = 500000`, `medianListPrice = 500000`,
`averageSoldPrice = 0`, `absorptionRate = 0` and `monthsOfSupply = 1`. -/
theorem C8_statistics_scenario :
    (statisticsOf [c8prop] []).averageListPrice = 500000 ∧
    (statisticsOf [c8prop] []).medianListPrice = 500000 ∧
    (statisticsOf [c8prop] []).averageSoldPrice = 0 ∧
    (statisticsOf [c8prop] []).absorptionRate = 0 ∧
    (statisticsOf [c8prop] []).monthsOfSupply = 1 := by
  norm_num [statisticsOf, activeListPricesOf, soldPricesOf, calculateAverage,
    calculateMedian, sortAsc, absorptionDenom, monthsSupplyDenom, jsOr, jsRound,
    ratFloor_eq_intFloor, c8prop, emptyProperty, List.insertionSort, List.orderedInsert]

/-! ## C5 — synthesizer division guards -/

/-- C5 counterexample: with no active listings and one closed listing whose
sold price is 500000, `soldPrices` is non-empty — so the source takes the
`averageSoldPrice / averageListPrice` branch of `listToSoldRatio` — while
that division's divisor `calculateAverage(activeListPrices)` is 0.  The
claim that every division performed by the statistics block has a nonzero
divisor is therefore false (JS produces `Infinity` there, without
throwing). -/
theorem C5_zero_divisor_counterexample :
    (soldPricesOf [c5closed]).length ≠ 0 ∧ listToSoldDenom [] = 0 := by
  constructor
  · norm_num [soldPricesOf, c5closed, emptyProperty]
  · norm_num [listToSoldDenom, activeListPricesOf, calculateAverage]

/-- C5 amended: the synthesizer (a total function here, so it cannot throw)
keeps the `absorptionRate` and `monthsOfSupply` divisors positive for every
pair of listing buckets — `activeListings.length || 1` and
`(closedListings.length / 3) || 1` — and `calculateAverage` divides only by
a non-zero length; only the `listToSoldRatio` divisor can be zero (see the
counterexample). -/
theorem C5_guarded_divisors (active closed : List PartialProperty) :
    0 < absorptionDenom active ∧ 0 < monthsSupplyDenom closed := by
  constructor
  · unfold absorptionDenom jsOr
    split
    · norm_num
    · next h =>
      have : 0 ≤ (active.length : ℚ) := by positivity
      exact lt_of_le_of_ne this (Ne.symm h)
  · unfold monthsSupplyDenom jsOr
    split
    · norm_num
    · next h =>
      have : 0 ≤ (closed.length : ℚ) / 3 := by positivity
      exact lt_of_le_of_ne this (Ne.symm h)

/-! ## Extractor structure lemmas (shared by C6 and C10) -/

/-- `partitionProps` is the stable two-way filter by sold-price truthiness. -/
theorem partitionProps_eq_filters (ps : List PartialProperty) :
    partitionProps ps = (ps.filter (fun p => !soldTruthy p), ps.filter soldTruthy) := by
  induction ps with
  | nil => rfl
  | cons p rest ih =>
    by_cases h : soldTruthy p = true <;>
      simp [partitionProps, ih, List.filter_cons, h]

/-- Active and closed buckets together are a permutation of the parsed
sequence: no duplicates, no omissions. -/
theorem partitionProps_perm (ps : List PartialProperty) :
    ((partitionProps ps).1 ++ (partitionProps ps).2).Perm ps := by
  rw [partitionProps_eq_filters]
  have h := List.filter_append_perm (fun p => !soldTruthy p) ps
  simpa using h

/-- A non-MLS line never sets `mlsNumber`. -/
theorem stepToken_mls_none {st : PartialProperty} {l : LineKind}
    (hl : isMlsLine l = false) (hst : st.mlsNumber = none) :
    (stepToken st l).1.mlsNumber = none := by
  cases l with
  | mls c => simp [isMlsLine] at hl
  | price a sold =>
    cases sold <;> simpa [stepToken] using hst
  | sqft n =>
    simp only [stepToken]
    cases h : st.listPrice with
    | none => simpa using hst
    | some p =>
      by_cases hp : p = 0
      · simpa [hp] using hst
      · simpa [hp] using hst
  | _ => simpa [stepToken] using hst

/-- A non-MLS line never pushes a property. -/
theorem stepToken_emits_nil {st : PartialProperty} {l : LineKind}
    (hl : isMlsLine l = false) : (stepToken st l).2 = [] := by
  cases l with
  | mls c => simp [isMlsLine] at hl
  | _ => rfl

/-- An accumulator without an MLS number is never flushed. -/
theorem flushable_of_none {s : PartialProperty} (h : s.mlsNumber = none) :
    flushable s = false := by
  simp [flushable, h]

/-- `runLines` over an append splits into the two runs. -/
theorem runLines_append (s : PartialProperty) (xs ys : List LineKind) :
    runLines s (xs ++ ys) =
      ((runLines s xs).1 ++ (runLines (runLines s xs).2 ys).1,
       (runLines (runLines s xs).2 ys).2) := by
  induction xs generalizing s with
  | nil => simp [runLines]
  | cons l rest ih => simp [runLines, ih]

/-- A run over MLS-free lines pushes nothing and keeps `mlsNumber` unset. -/
theorem runLines_noMls (xs : List LineKind) :
    ∀ s : PartialProperty, (∀ l ∈ xs, isMlsLine l = false) → s.mlsNumber = none →
      (runLines s xs).1 = [] ∧ (runLines s xs).2.mlsNumber = none := by
  induction xs with
  | nil => intro s _ hs; exact ⟨rfl, hs⟩
  | cons l rest ih =>
    intro s hx hs
    have hl : isMlsLine l = false := hx l (by simp)
    have hrest : ∀ m ∈ rest, isMlsLine m = false := fun m hm => hx m (by simp [hm])
    have h1 := stepToken_mls_none hl hs
    have h2 := ih (stepToken s l).1 hrest h1
    simp [runLines, stepToken_emits_nil hl, h2]

theorem extractProps_eq_finishRun (lines : List LineKind) :
    extractProps lines = finishRun emptyProperty lines := rfl

theorem finishRun_cons (s : PartialProperty) (l : LineKind) (rest : List LineKind) :
    finishRun s (l :: rest) = (stepToken s l).2 ++ finishRun (stepToken s l).1 rest := by
  simp [finishRun, runLines, List.append_assoc]

/-- The emitted properties do not depend on the starting accumulator as long
as it has no MLS number: the first MLS line overwrites it wholesale without
flushing it. -/
theorem finishRun_state_irrelevant (lines : List LineKind) :
    ∀ s1 s2 : PartialProperty, s1.mlsNumber = none → s2.mlsNumber = none →
      finishRun s1 lines = finishRun s2 lines := by
  induction lines with
  | nil =>
    intro s1 s2 h1 h2
    simp [finishRun, runLines, flushable_of_none h1, flushable_of_none h2]
  | cons l rest ih =>
    intro s1 s2 h1 h2
    rw [finishRun_cons, finishRun_cons]
    cases hl : isMlsLine l with
    | false =>
      rw [stepToken_emits_nil hl, stepToken_emits_nil hl]
      exact congrArg _ (ih _ _ (stepToken_mls_none hl h1) (stepToken_mls_none hl h2))
    | true =>
      cases l with
      | mls cap =>
        simp [stepToken, flushable_of_none h1, flushable_of_none h2]
      | _ => simp [isMlsLine] at hl

/-- Every property the loop pushes passed the flush guard. -/
theorem runLines_emitted_flushable (xs : List LineKind) :
    ∀ s : PartialProperty, ∀ q ∈ (runLines s xs).1, flushable q = true := by
  induction xs with
  | nil => intro s q hq; simp [runLines] at hq
  | cons l rest ih =>
    intro s q hq
    simp only [runLines, List.mem_append] at hq
    rcases hq with hq | hq
    · cases l with
      | mls cap =>
        simp only [stepToken] at hq
        by_cases hf : flushable s = true
        · simp [hf] at hq
          subst hq
          exact hf
        · simp [hf] at hq
      | sqft n =>
        simp only [stepToken] at hq
        cases s.listPrice <;> simp at hq
      | _ => simp [stepToken] at hq
    · exact ih _ q hq

/-- Every extracted property passed the flush guard. -/
theorem extractProps_flushable (lines : List LineKind) :
    ∀ q ∈ extractProps lines, flushable q = true := by
  intro q hq
  simp only [extractProps, List.mem_append] at hq
  rcases hq with hq | hq
  · exact runLines_emitted_flushable lines _ q hq
  · by_cases hf : flushable (runLines emptyProperty lines).2 = true
    · simp [hf] at hq
      subst hq
      exact hf
    · simp [hf] at hq

/-- The flush guard forces a present, non-empty MLS number. -/
theorem flushable_mlsNumber {q : PartialProperty} (h : flushable q = true) :
    ∃ s, q.mlsNumber = some s ∧ s ≠ "" := by
  simp only [flushable, Bool.and_eq_true] at h
  rcases h with ⟨-, h⟩
  cases hm : q.mlsNumber with
  | none => rw [hm] at h; simp at h
  | some s =>
    rw [hm] at h
    refine ⟨s, rfl, fun heq => ?_⟩
    subst heq
    exact absurd h (by decide)

/-! ## C6 — the partition invariant -/

/-- C6 counterexample: on `c6lines` the extractor emits exactly one
property, its `soldPrice` is *defined* (`some 0`), yet it lands in
`activeListings` and `closedListings` stays empty — the partition tests JS
truthiness (`if (property.soldPrice)`), not definedness, so the claimed
"closed iff soldPrice is defined" fails at this input. -/
theorem C6_partition_counterexample :
    extractProps c6lines = [c6prop] ∧
    c6prop.soldPrice = some 0 ∧
    (partitionProps (extractProps c6lines)).2 = [] ∧
    (partitionProps (extractProps c6lines)).1 = [c6prop] := by
  refine ⟨by decide, rfl, ?_, ?_⟩ <;> decide

/-- C6 amended: a property appears in `closedListings` iff its `soldPrice`
is defined *and nonzero* (JS truthiness); the buckets are the two stable
filters of the parsed sequence, and their concatenation is a permutation of
it — no duplicates, no omissions. -/
theorem C6_partition_truthy (lines : List LineKind) :
    (partitionProps (extractProps lines)).2 = (extractProps lines).filter soldTruthy ∧
    (partitionProps (extractProps lines)).1 =
      (extractProps lines).filter (fun p => !soldTruthy p) ∧
    (∀ p, p ∈ (partitionProps (extractProps lines)).2 ↔
       p ∈ extractProps lines ∧ soldTruthy p = true) ∧
    ((partitionProps (extractProps lines)).1 ++
        (partitionProps (extractProps lines)).2).Perm (extractProps lines) := by
  refine ⟨?_, ?_, ?_, partitionProps_perm _⟩
  · rw [partitionProps_eq_filters]
  · rw [partitionProps_eq_filters]
  · intro p
    rw [partitionProps_eq_filters]
    simp [List.mem_filter]

/-! ## C10 — lines before the first MLS number contribute nothing -/

/-- C10: (a) any prefix containing no MLS-number line can be dropped without
changing the extracted properties — its field matches land in an accumulator
that the first MLS line replaces unflushed (the flush guard needs a truthy
`mlsNumber`), and an MLS-free input flushes nothing; (b) every property in
either bucket carries a present, non-empty `mlsNumber`. -/
theorem C10_prefix_contributes_nothing :
    (∀ pre lines, (∀ l ∈ pre, isMlsLine l = false) →
       extractProps (pre ++ lines) = extractProps lines) ∧
    (∀ lines p, p ∈ (partitionProps (extractProps lines)).1 ∨
        p ∈ (partitionProps (extractProps lines)).2 →
       ∃ s, p.mlsNumber = some s ∧ s ≠ "") := by
  constructor
  · intro pre lines hpre
    rw [extractProps_eq_finishRun, extractProps_eq_finishRun]
    have hrun := runLines_noMls pre emptyProperty hpre rfl
    have hsplit : finishRun emptyProperty (pre ++ lines) =
        (runLines emptyProperty pre).1 ++
          finishRun (runLines emptyProperty pre).2 lines := by
      simp [finishRun, runLines_append, List.append_assoc]
    rw [hsplit, hrun.1]
    exact (List.nil_append _).trans
      (finishRun_state_irrelevant lines _ _ hrun.2 rfl)
  · intro lines p hp
    have hmem : p ∈ extractProps lines := by
      rw [partitionProps_eq_filters] at hp
      rcases hp with hp | hp <;> exact (List.mem_filter.mp hp).1
    exact flushable_mlsNumber (extractProps_flushable lines p hmem)

/-- C10 witness: dropping a street-address line in front of a concrete
MLS-numbered input leaves the extraction unchanged, and the extracted
property of that input has a non-empty MLS number. -/
theorem C10_prefix_contributes_nothing_witness :
    ((∀ l ∈ [LineKind.address ("5 Main St")], isMlsLine l = false) ∧
      extractProps ([LineKind.address ("5 Main St")] ++ c10lines) = extractProps c10lines) ∧
    (∃ s, (freshProperty ("77")).mlsNumber = some s ∧ s ≠ "") := by
  refine ⟨⟨by decide, C10_prefix_contributes_nothing.1 _ c10lines (by decide)⟩, ?_⟩
  exact C10_prefix_contributes_nothing.2 c10lines
    { freshProperty ("77") with listPrice := some 100 } (by left; decide) |>.imp
    (fun s hs => by simpa using hs)

/-! ## C3 — the concrete prediction scenario -/

/-- C3 counterexample: at the claim's exact input the three predicted prices
are indeed all 500000, but the confidences are *not* `0.9, 0.8, 0.7`: the
`0.1/strength` term is not guarded, so with `strength = 0` JS computes
`0.1/0 = Infinity` and `Math.max(0, -Infinity) = 0` for every horizon. -/
theorem C3_confidence_counterexample :
    (generatePredictions c3history [] [] c3trend c3noSeason 3).map Prediction.price =
      [500000, 500000, 500000] ∧
    (generatePredictions c3history [] [] c3trend c3noSeason 3).map Prediction.confidence ≠
      [9/10, 8/10, 7/10] := by
  constructor <;>
    simp [generatePredictions, c3history, c3noSeason, c3trend, monthIndexOf,
      seasonalFactorOf, trendFactorOf, maFactorOf, confidenceOf,
      List.range_succ, List.replicate]
  norm_num

/-- C3 amended: at that input `generatePredictions` returns three
predictions priced 500000 with confidence 0 each (the unguarded
`0.1/strength` drives the clamped confidence to 0 when the trend strength is
0). -/
theorem C3_predictions_value :
    generatePredictions c3history [] [] c3trend c3noSeason 3 =
      [⟨500000, 0⟩, ⟨500000, 0⟩, ⟨500000, 0⟩] := by
  simp [generatePredictions, c3history, c3noSeason, c3trend, monthIndexOf,
    seasonalFactorOf, trendFactorOf, maFactorOf, confidenceOf,
    List.range_succ, List.replicate]

/-! ## C1 — forecast confidence bounds, not monotone decay -/

/-- C1 counterexample: `validateMarketTrends` accepts `c1trends` (it checks
each confidence only against the range `[0.5, 1]`), yet the confidences
strictly increase with horizon length — monotone decay is not an invariant
of validated `MarketTrends`. -/
theorem C1_decay_counterexample :
    validateMarketTrends c1trends = .ok () ∧
    c1trends.forecast.nextMonth.confidence < c1trends.forecast.nextQuarter.confidence ∧
    c1trends.forecast.nextQuarter.confidence < c1trends.forecast.nextYear.confidence := by
  refine ⟨?_, by norm_num [c1trends], by norm_num [c1trends]⟩
  simp only [validateMarketTrends, checkHistory, checkSeasonality, checkForecast, c1trends]
  norm_num

/-- C1 amended: what the validator does guarantee about the forecast triple
of a `MarketTrends` it accepts — every horizon's confidence lies in
`[0.5, 1]` (the source checks the range per entry and never compares
horizons). -/
theorem C1_confidence_bounds (t : MarketTrends)
    (h : validateMarketTrends t = .ok ()) :
    (1/2 ≤ t.forecast.nextMonth.confidence ∧ t.forecast.nextMonth.confidence ≤ 1) ∧
    (1/2 ≤ t.forecast.nextQuarter.confidence ∧ t.forecast.nextQuarter.confidence ≤ 1) ∧
    (1/2 ≤ t.forecast.nextYear.confidence ∧ t.forecast.nextYear.confidence ≤ 1) := by
  unfold validateMarketTrends at h
  cases hh : checkHistory t.priceHistory with
  | error e => rw [hh] at h; simp at h
  | ok u =>
    rw [hh] at h
    cases hs : checkSeasonality t.seasonality with
    | error e => rw [hs] at h; simp at h
    | ok v =>
      rw [hs] at h
      have hcf : checkForecast t.forecast = .ok () := h
      unfold checkForecast at hcf
      split_ifs at hcf with h1 h2 h3 h4
      push_neg at h1 h2 h3
      exact ⟨⟨h1.1, h1.2⟩, ⟨h2.1, h2.2⟩, ⟨h3.1, h3.2⟩⟩

/-- C1 witness: the amended bound evaluated on the concrete accepted
trends. -/
theorem C1_confidence_bounds_witness :
    validateMarketTrends c1trends = .ok () ∧
    (1/2 ≤ c1trends.forecast.nextMonth.confidence ∧
      c1trends.forecast.nextMonth.confidence ≤ 1) :=
  ⟨by simp only [validateMarketTrends, checkHistory, checkSeasonality,
      checkForecast, c1trends]; norm_num,
   (C1_confidence_bounds c1trends
      (by simp only [validateMarketTrends, checkHistory, checkSeasonality,
            checkForecast, c1trends]; norm_num)).1⟩

/-! ## C4 — trend strength vs the spec's formula -/

theorem realChanges_length (prev : PricePoint) (l : List PricePoint) :
    (realChanges prev l).length = l.length := by
  induction l generalizing prev with
  | nil => rfl
  | cons q rest ih => simp [realChanges, ih]

/-- C4 counterexample: on `[100, 110]` the spec's formula gives strength 0
(the population standard deviation of the single change `[10]` is 0, and the
claim sets strength to 0 on zero volatility), but the source's volatility
also averages in the artificial leading 0 of its `priceChanges` array and
divides by the padded length, giving `volatility² = 50` and
`strength = 10/√50 = √2 ≠ 0` (squared: 2).  The claimed formula therefore
does not describe `calculateTrendStrength`. -/
theorem C4_strength_counterexample :
    specStrengthSqOf c4points = 0 ∧
    (calculateTrendStrength c4points).strengthSq = 2 ∧
    (calculateTrendStrength c4points).direction = .increasing := by
  norm_num [specStrengthSqOf, specVolatilitySqOf, calculateTrendStrength,
    avgChangeOf, volatilitySqOf, priceChangesOf, realChanges, c4points]

/-- C4 amended: with at least 2 points, the source's `avgChange` does equal
the mean of the real month-over-month percentage changes (the padded 0 adds
nothing to the sum and the divisor is the padded length minus one), but its
squared volatility relates to the spec's population variance of the changes
by `volatility² = (n·specVar + avgChange²) / (n + 1)` where `n` is the
number of real changes — the artificial leading 0 enters the deviations and
the divisor is the padded length.  With fewer than 2 points the result is
`{strength: 0, direction: 'stable'}` as claimed. -/
theorem C4_strength_formula (p : PricePoint) (rest : List PricePoint)
    (hlen : 1 ≤ rest.length) :
    avgChangeOf (p :: rest) =
      (realChanges p rest).sum / ((realChanges p rest).length : ℚ) ∧
    volatilitySqOf (p :: rest) =
      (((realChanges p rest).length : ℚ) * specVolatilitySqOf (p :: rest) +
        (avgChangeOf (p :: rest)) ^ 2) / (((realChanges p rest).length : ℚ) + 1) ∧
    (∀ ps : List PricePoint, ps.length < 2 → calculateTrendStrength ps = ⟨0, .stable⟩) := by
  have hn : ((realChanges p rest).length : ℚ) ≠ 0 := by
    have hpos : 0 < (realChanges p rest).length := by
      rw [realChanges_length]; omega
    exact_mod_cast Nat.pos_iff_ne_zero.mp hpos
  have havg : avgChangeOf (p :: rest) =
      (realChanges p rest).sum / ((realChanges p rest).length : ℚ) := by
    unfold avgChangeOf
    simp only [priceChangesOf, List.sum_cons, zero_add, List.length_cons]
    congr 1
    push_cast
    ring
  refine ⟨havg, ?_, ?_⟩
  · have hspecdef : specVolatilitySqOf (p :: rest) =
        ((realChanges p rest).map (fun v =>
          (v - (realChanges p rest).sum / ((realChanges p rest).length : ℚ)) ^ 2)).sum /
          ((realChanges p rest).length : ℚ) := rfl
    have hspec : ((realChanges p rest).map (fun v =>
        (v - avgChangeOf (p :: rest)) ^ 2)).sum =
        ((realChanges p rest).length : ℚ) * specVolatilitySqOf (p :: rest) := by
      rw [hspecdef, havg]
      field_simp
    have hvol : volatilitySqOf (p :: rest) =
        ((0 - avgChangeOf (p :: rest)) ^ 2 +
          ((realChanges p rest).map (fun v => (v - avgChangeOf (p :: rest)) ^ 2)).sum) /
          (((realChanges p rest).length : ℚ) + 1) := by
      unfold volatilitySqOf
      simp only [priceChangesOf, List.map_cons, List.sum_cons, List.length_cons]
      congr 1
      push_cast
      ring
    rw [hvol, hspec]
    ring_nf
  · intro ps hps
    simp [calculateTrendStrength, hps]

/-- C4 witness: the mean-of-changes identity evaluated on the two-point
fixture. -/
theorem C4_strength_formula_witness :
    1 ≤ ([(⟨"2024-02", 110, 0⟩ : PricePoint)] : List PricePoint).length ∧
    avgChangeOf c4points =
      (realChanges ⟨"2024-01", 100, 0⟩ [⟨"2024-02", 110, 0⟩]).sum /
        ((realChanges ⟨"2024-01", 100, 0⟩ [⟨"2024-02", 110, 0⟩]).length : ℚ) :=
  ⟨by decide,
   (C4_strength_formula ⟨"2024-01", 100, 0⟩ [⟨"2024-02", 110, 0⟩] (by decide)).1⟩

/-! ## C7 — median and average bounds -/

/-- `Math.round` keeps a value between *integer* bounds. -/
theorem jsRound_bounds {m M : ℤ} {q : ℚ} (h1 : (m : ℚ) ≤ q) (h2 : q ≤ (M : ℚ)) :
    (m : ℚ) ≤ (jsRound q : ℚ) ∧ (jsRound q : ℚ) ≤ (M : ℚ) := by
  rw [jsRound_def]
  constructor
  · have h : m ≤ ⌊q + 1/2⌋ := Int.le_floor.mpr (by linarith)
    exact_mod_cast h
  · have hlt : ⌊q + 1/2⌋ < M + 1 := Int.floor_lt.mpr (by push_cast; linarith)
    have h : ⌊q + 1/2⌋ ≤ M := by omega
    exact_mod_cast h

theorem sortAsc_mem {x : ℚ} {xs : List ℚ} : x ∈ sortAsc xs ↔ x ∈ xs :=
  (List.perm_insertionSort _ xs).mem_iff

theorem sortAsc_length (xs : List ℚ) : (sortAsc xs).length = xs.length :=
  List.length_insertionSort _ xs

/-- C7 counterexample: on the one-element sequence `[0.5]` the rounded
average is 1, strictly above the maximum 0.5 — for arbitrary numeric
sequences the rounding of `calculateAverage` can leave the `[min, max]`
interval, so the claim as stated fails. -/
theorem C7_bounds_counterexample :
    (∀ x ∈ [(1 : ℚ)/2], x ≤ 1/2) ∧ 1/2 < calculateAverage [(1 : ℚ)/2] := by
  constructor
  · intro x hx
    simp only [List.mem_singleton] at hx
    rw [hx]
  · norm_num [calculateAverage, jsRound, ratFloor_eq_intFloor]

/-- C7 amended: for every non-empty sequence bounded by *integer* bounds
`m ≤ x ≤ M` — in particular every sequence of integers, which is all the
synthesizer ever feeds these helpers — both the rounded average and the
median of `calculateAverage`/`calculateMedian` lie in `[m, M]`. -/
theorem C7_median_average_bounds (xs : List ℚ) (m M : ℤ) (hne : xs ≠ [])
    (hb : ∀ x ∈ xs, (m : ℚ) ≤ x ∧ x ≤ (M : ℚ)) :
    ((m : ℚ) ≤ calculateAverage xs ∧ calculateAverage xs ≤ (M : ℚ)) ∧
    ((m : ℚ) ≤ calculateMedian xs ∧ calculateMedian xs ≤ (M : ℚ)) := by
  have hlen0 : ¬ xs.length = 0 := by
    simpa using (List.length_pos.mpr hne).ne'
  have hlenpos : (0 : ℚ) < (xs.length : ℚ) := by
    exact_mod_cast Nat.pos_of_ne_zero hlen0
  constructor
  · unfold calculateAverage
    rw [if_neg hlen0]
    have hsum_le : xs.sum ≤ (xs.length : ℚ) * M := by
      have h := List.sum_le_card_nsmul xs (M : ℚ) (fun x hx => (hb x hx).2)
      simpa [nsmul_eq_mul] using h
    have hle_sum : (xs.length : ℚ) * m ≤ xs.sum := by
      have h := List.card_nsmul_le_sum xs (m : ℚ) (fun x hx => (hb x hx).1)
      simpa [nsmul_eq_mul] using h
    exact jsRound_bounds
      ((le_div_iff₀ hlenpos).mpr (by linarith))
      ((div_le_iff₀ hlenpos).mpr (by linarith))
  · unfold calculateMedian
    rw [if_neg hlen0]
    have hmid : xs.length / 2 < (sortAsc xs).length := by
      rw [sortAsc_length]
      exact Nat.div_lt_self (Nat.pos_of_ne_zero hlen0) one_lt_two
    have hmem_mid : (sortAsc xs).getD (xs.length / 2) 0 ∈ xs := by
      rw [List.getD_eq_getElem _ _ hmid]
      exact sortAsc_mem.mp (List.getElem_mem _)
    by_cases hodd : xs.length % 2 = 1
    · rw [if_pos hodd]
      exact hb _ hmem_mid
    · rw [if_neg hodd]
      have hmid1 : xs.length / 2 - 1 < (sortAsc xs).length :=
        lt_of_le_of_lt (Nat.sub_le _ _) hmid
      have hmem_mid1 : (sortAsc xs).getD (xs.length / 2 - 1) 0 ∈ xs := by
        rw [List.getD_eq_getElem _ _ hmid1]
        exact sortAsc_mem.mp (List.getElem_mem _)
      have ha := hb _ hmem_mid1
      have hb2 := hb _ hmem_mid
      exact jsRound_bounds (by linarith) (by linarith)

/-- C7 witness: the amended bounds evaluated on `[3, 5]` with `m = 3`,
`M = 5`. -/
theorem C7_median_average_bounds_witness :
    (([(3 : ℚ), 5] : List ℚ) ≠ [] ∧ ∀ x ∈ [(3 : ℚ), 5], ((3 : ℤ) : ℚ) ≤ x ∧ x ≤ ((5 : ℤ) : ℚ)) ∧
    (((3 : ℤ) : ℚ) ≤ calculateAverage [(3 : ℚ), 5] ∧
      calculateAverage [(3 : ℚ), 5] ≤ ((5 : ℤ) : ℚ)) :=
  ⟨⟨by simp, by intro x hx; rcases List.mem_cons.mp hx with h | h <;> simp_all <;> norm_num⟩,
   (C7_median_average_bounds [3, 5] 3 5 (by simp)
     (by intro x hx; rcases List.mem_cons.mp hx with h | h <;> simp_all <;> norm_num)).1⟩

/-! ## C2 — what the round-trip hypothesis does and does not buy -/

theorem validatePricePoint_ok {p : PricePoint} (h : pointOk p) :
    validatePricePoint p = .ok () := by
  obtain ⟨h1, h2, h3⟩ := h
  simp [validatePricePoint, h1, not_le.mpr h2, not_lt.mpr h3]

theorem checkHistoryLoop_ok (rest : List PricePoint) :
    ∀ (prev : PricePoint) (i : ℕ), (∀ q ∈ rest, pointOk q) →
      List.Chain' stepOk (prev :: rest) → checkHistoryLoop prev i rest = .ok () := by
  induction rest with
  | nil => intros; rfl
  | cons p rest' ih =>
    intro prev i hall hchain
    have hp : pointOk p := hall p (by simp)
    have hstep : stepOk prev p ∧ List.Chain' stepOk (p :: rest') :=
      List.chain'_cons.mp hchain
    have hle : jsStrLe p.date prev.date = false := by
      simp [jsStrLe, hstep.1.1]
    have hex : priceChangeExceeds prev.price p.price = false := by
      simp only [priceChangeExceeds, decide_eq_false_iff_not, not_lt]
      exact hstep.1.2
    simp only [checkHistoryLoop, validatePricePoint_ok hp, hle, hex]
    simp only [Bool.false_eq_true, if_false]
    exact ih p (i + 1) (fun q hq => hall q (by simp [hq])) hstep.2

theorem checkHistory_ok {pts : List PricePoint} (hall : ∀ q ∈ pts, pointOk q)
    (hchain : List.Chain' stepOk pts) : checkHistory pts = .ok () := by
  cases pts with
  | nil => rfl
  | cons p rest =>
    have hp : pointOk p := hall p (by simp)
    simp only [checkHistory, validatePricePoint_ok hp]
    exact checkHistoryLoop_ok rest p 1 (fun q hq => hall q (by simp [hq])) hchain

/-- C2 counterexample: `c2report` satisfies the claim's hypothesis — every
property (there are none) meets the `±1` price-per-sqft tolerance and the
(empty) price history is chronological with bounded changes — yet
`validateMLSReport` throws: its forecast-confidence rule fires on the zero
confidences.  The hypothesis constrains only two of the validator's rule
groups, so the claim as stated is false. -/
theorem C2_throws_counterexample :
    (∀ v ∈ c2report.activeListings ++ c2report.closedListings,
      |v.listPrice / v.sqft - v.pricePerSqft| ≤ 1) ∧
    List.Chain' stepOk c2report.marketTrends.priceHistory ∧
    validateMLSReport c2report =
      .error ⟨"Invalid confidence value", "forecast.nextMonth.confidence"⟩ := by
  refine ⟨by simp [c2report], by simp [c2report, defaultMarketTrends], ?_⟩
  simp only [validateMLSReport, validateMarketTrends, checkHistory, checkSeasonality,
    checkForecast, c2report, defaultMarketTrends]
  norm_num

/-- C2 amended: the claim's hypothesis guarantees exactly the rule groups it
speaks about.  (a) A property that passes the structural checks (positive
list price, square footage and bedrooms, non-blank address, well-formed
bathroom string) and meets the `±1` price-per-sqft tolerance passes
`validateProperty`.  (b) A price history of valid points, strictly
chronological with every month-over-month change at most 15%, passes the
history loop of `validateMarketTrends`.  The other rule groups of
`validateMLSReport` can still throw (see the counterexample). -/
theorem C2_hypothesis_rules_pass :
    (∀ v : PropertyV, 0 < v.listPrice → 0 < v.sqft → ¬ jsTrim v.address = "" →
      0 < v.bedrooms → bathFormatOk v.bathrooms = true →
      |v.listPrice / v.sqft - v.pricePerSqft| ≤ 1 → validateProperty v = .ok ()) ∧
    (∀ pts : List PricePoint, (∀ q ∈ pts, pointOk q) → List.Chain' stepOk pts →
      checkHistory pts = .ok ()) := by
  constructor
  · intro v h1 h2 h3 h4 h5 h6
    simp [validateProperty, not_le.mpr h1, not_le.mpr h2, h3, not_le.mpr h4, h5,
      not_lt.mpr h6]
  · intro pts hall hchain
    exact checkHistory_ok hall hchain

/-- C2 witness: the amended statement applied to `c2prop` and the concrete
two-point history of the spec's scenario. -/
theorem C2_hypothesis_rules_pass_witness :
    ((0 : ℚ) < 500000 ∧ validateProperty c2prop = .ok ()) ∧
    checkHistory [⟨"2024-01", 500000, 100⟩, ⟨"2024-02", 505000, 95⟩] = .ok () :=
  ⟨⟨by norm_num,
    C2_hypothesis_rules_pass.1 c2prop (by norm_num [c2prop]) (by norm_num [c2prop])
      (by decide) (by norm_num [c2prop]) (by decide) (by norm_num [c2prop])⟩,
   C2_hypothesis_rules_pass.2 [⟨"2024-01", 500000, 100⟩, ⟨"2024-02", 505000, 95⟩]
     (by intro q hq
         rcases List.mem_cons.mp hq with h | h
         · subst h; refine ⟨by decide, by norm_num, by norm_num⟩
         · simp only [List.mem_singleton] at h
           subst h; refine ⟨by decide, by norm_num, by norm_num⟩)
     (by refine List.chain'_cons.mpr ⟨⟨by decide, by norm_num [abs_le]⟩, ?_⟩
         exact List.chain'_singleton _)⟩

end MLS
